import Mathlib

/-!
Verification development for the curriculum-agent service
(`curriculum_agent.py` and `api.py`).

The Python code is shallowly embedded: Python strings are Lean `String`s,
Python dicts whose keys are dynamic are association lists
(`List (String × _)`, insertion order preserved, first match wins —
the dicts built here never hold duplicate keys), dicts with a fixed field
set are Lean structures, and Python functions that may raise are modelled
with `Option`/`Except`.  External capabilities (the semantic index query,
the Gemini generation call, JSON parsing of model output) are parameters
of the embedded functions: a `none`/`Except.error` result stands for a
raised exception or unparseable text.
-/

set_option maxRecDepth 20000

namespace CurriculumAgent

/-! ## Python string primitives

These mirror the semantics of the Python `str` methods used by the source
(`strip`, `startswith`, `endswith`, `in`, `replace`, `split`, `lower`,
`title`).  `lower`/`title` are modelled on ASCII letters, which covers
every string those methods are applied to in the source. -/

/-- Characters removed by Python `str.strip()`. -/
def pyIsSpace (c : Char) : Bool :=
  c = ' ' || c = '\t' || c = '\n' || c = '\r' || c = '\x0b' || c = '\x0c'

/-- Drop leading whitespace from a character list. -/
def stripLeft : List Char → List Char
  | [] => []
  | c :: cs => if pyIsSpace c then stripLeft cs else c :: cs

/-- Python `s.strip()`. -/
def pyStrip (s : String) : String :=
  ⟨stripLeft ((stripLeft s.data.reverse).reverse)⟩

/-- Python `s.startswith(pat)`. -/
def pyStartsWith (s pat : String) : Bool :=
  List.isPrefixOf pat.data s.data

/-- Python `s.endswith(pat)`. -/
def pyEndsWith (s pat : String) : Bool :=
  List.isPrefixOf pat.data.reverse s.data.reverse

/-- Substring test on character lists (Python `pat in s`). -/
def containsSub (pat : List Char) : List Char → Bool
  | [] => pat.isEmpty
  | c :: cs => List.isPrefixOf pat (c :: cs) || containsSub pat cs

/-- Python `pat in s`. -/
def pyInStr (pat s : String) : Bool :=
  containsSub pat.data s.data

/-- Replace every occurrence of `pat` (non-empty) by `repl`, structurally
recursing on a fuel bound (one character is consumed per step, so fuel
equal to the input length is always enough). -/
def replaceSub (pat repl : List Char) : Nat → List Char → List Char
  | _, [] => []
  | 0, l => l
  | fuel + 1, c :: cs =>
    if !pat.isEmpty && List.isPrefixOf pat (c :: cs) then
      repl ++ replaceSub pat repl fuel (List.drop (pat.length - 1) cs)
    else
      c :: replaceSub pat repl fuel cs

/-- Python `s.replace(pat, repl)`. -/
def pyReplace (s pat repl : String) : String :=
  ⟨replaceSub pat.data repl.data s.data.length s.data⟩

/-- Split a character list on a separator character. -/
def splitOnChar (sep : Char) : List Char → List (List Char)
  | [] => [[]]
  | c :: cs =>
    if c = sep then
      [] :: splitOnChar sep cs
    else
      match splitOnChar sep cs with
      | [] => [[c]]
      | h :: t => (c :: h) :: t

/-- Python `s.split(sep)` for a one-character separator. -/
def pySplit (s : String) (sep : Char) : List String :=
  (splitOnChar sep s.data).map String.mk

/-- Python `s.lower()` (ASCII). -/
def pyLower (s : String) : String :=
  ⟨s.data.map Char.toLower⟩

/-- Core of Python `str.title()`: uppercase a letter that follows a
non-letter, lowercase a letter that follows a letter (ASCII). -/
def titleCore : Bool → List Char → List Char
  | _, [] => []
  | prevAlpha, c :: cs =>
    if c.isAlpha then
      (if prevAlpha then c.toLower else c.toUpper) :: titleCore true cs
    else
      c :: titleCore false cs

/-- Python `s.title()` (ASCII). -/
def pyTitle (s : String) : String :=
  ⟨titleCore false s.data⟩

/-- Python `d.get(k, default)` on an association-list dict. -/
def pyGet {β : Type} (d : List (String × β)) (k : String) (dflt : β) : β :=
  match d.find? (fun p => p.1 == k) with
  | some p => p.2
  | none => dflt

/-! ## Data model (`curriculum_agent.py`) -/

/-- Fields of one Knowledge Base entry (the inner dict of
`knowledge_base`, accessed by the fixed keys
`vocabulary` / `grammar` / `interactions` / `cultural_notes`). -/
structure KContent where
  vocabulary : String
  grammar : String
  interactions : String
  cultural_notes : String
deriving DecidableEq

/-- Python `CurriculumInput` dataclass. -/
structure CurriculumInput where
  target_language : String
  scenario : String
deriving DecidableEq

/-- Python `CurriculumOutput` model: the question and correction dicts
have dynamic string keys, so they are kept as association lists. -/
structure CurriculumOutput where
  scenario_scene : String
  curriculum_questions : List (List (String × String))
  correction_examples : List (List (String × String))
deriving DecidableEq

/-- Knowledge base literal of `_build_knowledge_index`
(scenario → language → content, in source order). -/
def knowledge_base : List (String × List (String × KContent)) := [
  ("cafe_order",
   [
    ("French",
      ⟨"bonjour, s\x27il vous plaît, merci, café, thé, eau, pain, croissant, combien, euros, commander, boire, manger, dessert, plat principal, entrée, addition, pourboire, spécialité, recommandation, allergie, végétarien, sans gluten, frais, bio, local, saisonnier, terroir, gastronomie",
       "Present tense, polite requests with \x27je voudrais\x27, questions with \x27est-ce que\x27, numbers, articles (le, la, les), negation with \x27ne...pas\x27, conditional tense for polite requests, relative pronouns, complex questions",
       "Greeting with \x27bonjour\x27, ordering with \x27je voudrais\x27, asking prices with \x27combien\x27, thanking with \x27merci\x27, detailed ordering, asking about ingredients, requesting modifications, asking for recommendations, discussing dietary restrictions, cultural conversation, expressing preferences",
       "French cafes are social spaces. Say \x27bonjour\x27 when entering. Tipping is appreciated but not mandatory. French dining is leisurely. Lunch is typically 12-2 PM. Many cafes have outdoor seating. French cuisine emphasizes fresh, local ingredients. Wine is often served with meals."⟩),
    ("Spanish",
      ⟨"hola, por favor, gracias, café, té, agua, pan, churros, cuánto, euros, uno, dos, tres, pedir, beber, comer, postre, plato principal, entrada, cuenta, propina, especialidad",
       "Present tense with regular verbs, simple questions, numbers 1-20, articles (el, la, los, las), negation, polite requests with \x27podría\x27",
       "Greeting with \x27hola\x27, ordering with \x27quisiera\x27, asking prices with \x27cuánto\x27, thanking with \x27gracias\x27, detailed ordering, asking about ingredients, requesting modifications",
       "Spanish cafes serve tapas. Lunch is typically served from 2-4 PM. Coffee is often served with a small glass of water. Spanish dining is social and leisurely. Tapas are meant to be shared."⟩)]),
  ("hotel_checkin",
   [
    ("French",
      ⟨"hôtel, chambre, réservation, nom, passeport, clé, étage, ascenseur, wifi, téléphone, réception, réceptionniste, confirmer, annuler, tarif, petit-déjeuner, service, chambre simple/double, équipement, climatisation, vue, calme, bruit, problème technique, maintenance, concierge",
       "Present tense of \x27avoir\x27 and \x27être\x27, basic questions, numbers, possessive adjectives, past tense (passé composé), polite requests, time expressions, future tense for plans, subjunctive mood, complex conditional sentences, formal register, passive voice",
       "Basic check-in process, providing personal information, asking for room key, simple requests, confirming reservations, asking about hotel services, requesting changes, discussing preferences, complaining professionally, requesting changes, discussing preferences, problem resolution",
       "Check-in is usually after 3 PM. Many hotels require passport for registration. French hotels often include breakfast. Room service is common in higher-end hotels. French hotels emphasize service quality. Concierge services are common in luxury hotels."⟩),
    ("Spanish",
      ⟨"hotel, habitación, reserva, nombre, pasaporte, llave, piso, ascensor, wifi",
       "Present tense of \x27tener\x27 and \x27ser\x27, basic questions, numbers",
       "Basic check-in, providing information, asking for room key",
       "Check-in typically starts at 2 PM. Spanish hotels often have siesta hours."⟩)]),
  ("shopping",
   [
    ("French",
      ⟨"magasin, boutique, prix, cher, bon marché, taille, couleur, essayer, payer, carte, réduction, solde, marque, qualité, matière, style, mode, tendance, collection, artisanat, fait main, éthique, durable, vintage, exclusif, sur mesure, créateur",
       "Present tense, simple questions, numbers, basic adjectives, comparatives, superlatives, past tense, polite requests, complex conditionals, subjunctive, relative clauses, formal expressions",
       "Asking for items, checking prices, trying on clothes, basic payment, asking for discounts, discussing quality, comparing items, negotiating, discussing craftsmanship, ethical shopping, custom orders, cultural appreciation",
       "French shopping is often in small boutiques. Sales happen in January and July. French fashion is world-renowned. Many shops close for lunch (12-2 PM). France values craftsmanship and quality over mass production."⟩)])
]

/-- Document text built for one (scenario, language) pair by
`_build_knowledge_index` (the f-string, with its literal indentation). -/
def docText (scenario language : String) (content : KContent) : String :=
  "\n                Scenario: " ++ pyTitle (pyReplace scenario "_" " ") ++
  "\n                Target Language: " ++ language ++
  "\n                \n                Vocabulary Focus: " ++ content.vocabulary ++
  "\n                Grammar Focus: " ++ content.grammar ++
  "\n                Interaction Patterns: " ++ content.interactions ++
  "\n                Cultural Context: " ++ content.cultural_notes ++
  "\n                \n                Teaching Guidelines:" ++
  "\n                - Use appropriate vocabulary for " ++ language ++
  "\n                - Focus on " ++ content.grammar ++ " structures" ++
  "\n                - Emphasize " ++ content.interactions ++ " in " ++
    pyReplace scenario "_" " " ++ " context" ++
  "\n                - Include cultural notes: " ++ content.cultural_notes ++
  "\n                "

/-- Texts of the documents handed to the index, in insertion order
(the docstore holds exactly the documents built from `knowledge_base`). -/
def documents : List String :=
  knowledge_base.flatMap (fun p => p.2.map (fun q => docText p.1 q.1 q.2))

/-- Extraction step of `get_available_scenarios_and_languages` for one
document and one marker (`"Scenario:"` or `"Target Language:"`): guard
`marker in text`, keep lines whose stripped form starts with the marker,
take the first, delete the marker and strip. -/
def extractMarked (marker : String) (text : String) : Option String :=
  if pyInStr marker text then
    match (pySplit text '\n').filter (fun line => pyStartsWith (pyStrip line) marker) with
    | [] => none
    | line :: _ => some (pyStrip (pyReplace line marker ""))
  else
    none

/-- Lexicographic code-point order on character lists (the order Python
`sorted` uses on strings). -/
def listStrLt : List Char → List Char → Bool
  | [], [] => false
  | [], _ :: _ => true
  | _ :: _, [] => false
  | a :: as, b :: bs =>
    if a.toNat < b.toNat then true
    else if b.toNat < a.toNat then false
    else listStrLt as bs

/-- Python `x < y` on strings. -/
def pyStrLt (x y : String) : Bool :=
  listStrLt x.data y.data

/-- Insert into a sorted duplicate-free list of strings. -/
def insertSortedNoDup (x : String) : List String → List String
  | [] => [x]
  | y :: ys =>
    if x = y then y :: ys
    else if pyStrLt x y then x :: y :: ys
    else y :: insertSortedNoDup x ys

/-- Python `sorted(list(set(xs)))` for strings. -/
def pySortedSet (xs : List String) : List String :=
  xs.foldl (fun acc x => insertSortedNoDup x acc) []

/-- Embedding of `get_available_scenarios_and_languages`: collect the
`Scenario:` and `Target Language:` values of every indexed document into
two sets and return them as sorted lists. -/
def get_available_scenarios_and_languages : List String × List String :=
  (pySortedSet (documents.filterMap (extractMarked "Scenario:")),
   pySortedSet (documents.filterMap (extractMarked "Target Language:")))

/-! ## Caches and real-world data -/

/-- Cache key built by `_precompute_contexts` and `generate_curriculum`:
`f"{scenario}_{language}"`. -/
def cacheKey (scenario language : String) : String :=
  scenario ++ "_" ++ language

/-- Mock table of `_get_real_world_data`.  The innermost dicts are kept
as association lists because their key sets differ (`menu_items` for the
cafe entries, `hotel_terms` for the hotel entries) and they are read
with `dict.get` and a default. -/
def real_world_data : List (String × List (String × List (String × String))) := [
  ("cafe_order",
   [
    ("French", [
      ("menu_items", "Café au lait (€3.50), Croissant (€1.20), Pain au chocolat (€1.30), Tarte Tatin (€4.50), Macaron (€2.00)"),
      ("common_phrases", "Un café, s\x27il vous plaît. / L\x27addition, s\x27il vous plaît. / C\x27est combien? / Avez-vous du lait?"),
      ("cultural_notes", "French cafes often have outdoor seating. Tipping is appreciated but not mandatory. Coffee is typically served in small cups.")]),
    ("Spanish", [
      ("menu_items", "Café con leche (€2.80), Churros (€3.50), Tortilla española (€8.00), Paella (€15.00), Tapas (€3-8)"),
      ("common_phrases", "Un café, por favor. / La cuenta, por favor. / ¿Cuánto cuesta? / ¿Tienen leche?"),
      ("cultural_notes", "Spanish cafes serve tapas. Lunch is typically served from 2-4 PM. Coffee is often served with a small glass of water.")])]),
  ("hotel_checkin",
   [
    ("French", [
      ("hotel_terms", "Chambre simple (€80), Chambre double (€120), Suite (€200), Petit-déjeuner inclus, Vue sur la ville"),
      ("common_phrases", "J\x27ai une réservation. / Pouvez-vous confirmer ma chambre? / À quel étage? / L\x27ascenseur, s\x27il vous plaît."),
      ("cultural_notes", "Check-in is usually after 3 PM. Many hotels require passport for registration. French hotels emphasize service quality.")]),
    ("Spanish", [
      ("hotel_terms", "Habitación individual (€70), Habitación doble (€110), Suite (€180), Desayuno incluido, Vista a la ciudad"),
      ("common_phrases", "Tengo una reserva. / ¿Puede confirmar mi habitación? / ¿En qué piso? / El ascensor, por favor."),
      ("cultural_notes", "Check-in typically starts at 2 PM. Spanish hotels often have siesta hours. Service is warm and personal.")])])
]

/-- Flag `bright_data` of the source module; it is the literal `False`,
so `_get_real_world_data` always takes the mock-table path. -/
def bright_data : Bool := false

/-- Formatted text block returned by `_get_real_world_data` (the mock-path
f-string, with its literal indentation). -/
def realWorldBlock (scenario target_language menu phrases notes : String) : String :=
  "\n        Real-world context for " ++ scenario ++ " in " ++ target_language ++
  ":\n        Menu/Terms: " ++ menu ++
  "\n        Common Phrases: " ++ phrases ++
  "\n        Cultural Notes: " ++ notes ++
  "\n        "

/-- Embedding of `_get_real_world_data`.  Since `bright_data` is `false`
the Brightdata live-fetch branch is never entered; the mock table is
consulted with the lower-cased, space-to-underscore scenario and the
exact language string, and each missing field defaults to `"N/A"`. -/
def get_real_world_data (scenario target_language : String) : String :=
  let scenario_key := pyReplace (pyLower scenario) " " "_"
  let language_data := pyGet (pyGet real_world_data scenario_key []) target_language []
  realWorldBlock scenario target_language
    (pyGet language_data "menu_items" "N/A")
    (pyGet language_data "common_phrases" "N/A")
    (pyGet language_data "cultural_notes" "N/A")

/-- Knowledge cache built by `_precompute_contexts`: one entry per
(scenario, language) pair of the enumeration, in loop order.  The
semantic-index query `_query_knowledge_base` is an external capability:
`queryKB s l = none` models the query raising, in which case the
`except` branch stores the empty string. -/
def knowledgeCacheOf (queryKB : String → String → Option String) :
    List (String × String) :=
  get_available_scenarios_and_languages.1.flatMap (fun s =>
    get_available_scenarios_and_languages.2.map (fun l =>
      (cacheKey s l, (queryKB s l).getD "")))

/-- Real-world cache built by `_precompute_contexts`: one entry per
(scenario, language) pair, holding `_get_real_world_data`, which on the
mock path is total (its `except` branch is dead). -/
def realWorldCacheOf : List (String × String) :=
  get_available_scenarios_and_languages.1.flatMap (fun s =>
    get_available_scenarios_and_languages.2.map (fun l =>
      (cacheKey s l, get_real_world_data s l)))

/-- Mutable state of a `LlamaCurriculumAgent` after construction: the two
context caches. -/
structure AgentState where
  knowledge_cache : List (String × String)
  real_world_cache : List (String × String)
deriving DecidableEq

/-- Statistics dict returned by `get_cache_stats`. -/
structure CacheStats where
  knowledge_cache_size : Nat
  real_world_cache_size : Nat
  cached_combinations : List String
  cache_hit_rate : String
deriving DecidableEq

/-- Embedding of `get_cache_stats`. -/
def get_cache_stats (st : AgentState) : CacheStats :=
  ⟨st.knowledge_cache.length,
   st.real_world_cache.length,
   st.knowledge_cache.map Prod.fst,
   if st.knowledge_cache.length > 0 then "100%" else "0%"⟩

/-- Embedding of `_get_real_world_data` as a method on the agent state:
the method body (mock path) reads no agent attribute and assigns none,
so the state passes through unchanged. -/
def getRealWorldDataS (st : AgentState) (scenario target_language : String) :
    String × AgentState :=
  (get_real_world_data scenario target_language, st)

/-! ## Curriculum generation -/

/-- Embedding of `_create_fallback_curriculum`. -/
def create_fallback_curriculum (input_data : CurriculumInput) : CurriculumOutput :=
  let scenario_scene :=
    if pyLower input_data.scenario = "cafe order" then
      "You are in a charming " ++ input_data.target_language ++
      " café. The waiter approaches your table with a warm smile. Practice your " ++
      input_data.target_language ++ " skills."
    else if pyLower input_data.scenario = "hotel check-in" then
      "You are at the reception desk of a " ++ input_data.target_language ++
      " hotel. The receptionist greets you. Practice your " ++
      input_data.target_language ++ " skills."
    else
      "You are in a " ++ pyLower input_data.scenario ++ " setting. Practice your " ++
      input_data.target_language ++ " skills."
  if input_data.target_language = "French" then
    ⟨scenario_scene,
     [[("question", "How would you greet someone in this scenario?"),
       ("expected_response", "Bonjour, monsieur/madame")],
      [("question", "What would you like to order or request?"),
       ("expected_response",
        if pyInStr "cafe" (pyLower input_data.scenario) then
          "Je voudrais un café, s\x27il vous plaît"
        else
          "J\x27ai une réservation")]],
     [[("incorrect_phrase", "I want coffee"),
       ("correct_phrase", "Je voudrais un café"),
       ("explanation", "Use polite forms and proper articles in French")]]⟩
  else if input_data.target_language = "Spanish" then
    ⟨scenario_scene,
     [[("question", "How would you greet someone in this scenario?"),
       ("expected_response", "Hola, señor/señora")],
      [("question", "What would you like to order or request?"),
       ("expected_response",
        if pyInStr "cafe" (pyLower input_data.scenario) then
          "Quisiera un café, por favor"
        else
          "Tengo una reserva")]],
     [[("incorrect_phrase", "I want coffee"),
       ("correct_phrase", "Quisiera un café"),
       ("explanation", "Use polite forms and proper articles in Spanish")]]⟩
  else
    ⟨scenario_scene,
     [[("question", "How would you greet someone in this scenario?"),
       ("expected_response", "Use appropriate greetings for the context and language level.")],
      [("question", "What would you like to order or request?"),
       ("expected_response", "Make a simple request using basic vocabulary and grammar.")]],
     [[("incorrect_phrase", "I want coffee"),
       ("correct_phrase", "Use polite forms in the target language"),
       ("explanation", "Use polite forms and proper articles in the target language.")]]⟩

/-- Markdown code-fence stripping applied to the model response before
JSON parsing (`strip`, drop a leading ```` ```json ````, drop a
trailing ```` ``` ````, `strip`). -/
def stripCodeFence (t : String) : String :=
  let t1 := pyStrip t
  let t2 := if pyStartsWith t1 "\x60\x60\x60json" then ⟨t1.data.drop 7⟩ else t1
  let t3 := if pyEndsWith t2 "\x60\x60\x60" then ⟨t2.data.take (t2.data.length - 3)⟩ else t2
  pyStrip t3

/-- Prompt built by `generate_curriculum` for the generation call. -/
def mkPrompt (input_data : CurriculumInput)
    (knowledge_context real_world_context : String) : String :=
  "\n        Generate a language learning curriculum for " ++ input_data.target_language ++
  ".\n        \n        Scenario: " ++ input_data.scenario ++
  "\n        \n        Contextual Knowledge from LlamaIndex:\n        " ++ knowledge_context ++
  "\n        \n        Real-world Context:\n        " ++ real_world_context ++
  "\n        \n        Please generate a JSON response with the following structure:" ++
  "\n        \x7b\n            \"scenario_scene\": \"A detailed description of the scenario setting and context\"," ++
  "\n            \"curriculum_questions\": [\n                \x7b" ++
  "\n                    \"question\": \"A question to guide the AI in the conversation\"," ++
  "\n                    \"expected_response\": \"What the AI should respond with\"" ++
  "\n                \x7d\n            ]," ++
  "\n            \"correction_examples\": [\n                \x7b" ++
  "\n                    \"incorrect_phrase\": \"Common mistake a learner might make\"," ++
  "\n                    \"correct_phrase\": \"The correct way to say it\"," ++
  "\n                    \"explanation\": \"Gentle explanation of the correction\"" ++
  "\n                \x7d\n            ]\n        \x7d\n        " ++
  "\n        Make the content authentic to " ++ input_data.target_language ++
  " culture and appropriate for language learners." ++
  "\n        Use the knowledge from LlamaIndex to ensure accuracy and cultural appropriateness.\n        "

/-- Embedding of `generate_curriculum`.  External capabilities are
parameters: `queryKB` is the on-demand semantic query used when the
cache entry is missing or empty, `genResult` is the Gemini call on the
assembled prompt (`none` models a raised exception), and
`parseCurriculum` is `json.loads` plus `CurriculumOutput(**·)` (`none`
models a JSON error or missing field).  Either `none` lands in the
`except` branch, which returns the fallback curriculum. -/
def generate_curriculum (st : AgentState)
    (queryKB : String → String → String)
    (genResult : String → Option String)
    (parseCurriculum : String → Option CurriculumOutput)
    (input_data : CurriculumInput) : CurriculumOutput :=
  let cache_key := cacheKey input_data.scenario input_data.target_language
  let kc := pyGet st.knowledge_cache cache_key ""
  let knowledge_context :=
    if kc = "" then queryKB input_data.scenario input_data.target_language else kc
  let rc := pyGet st.real_world_cache cache_key ""
  let real_world_context :=
    if rc = "" then get_real_world_data input_data.scenario input_data.target_language else rc
  let prompt := mkPrompt input_data knowledge_context real_world_context
  match genResult prompt with
  | none => create_fallback_curriculum input_data
  | some text =>
    match parseCurriculum (stripCodeFence text) with
    | none => create_fallback_curriculum input_data
    | some out => out

/-! ## API layer (`api.py`) -/

/-- Payload of a FastAPI `HTTPException`. -/
structure HTTPError where
  status_code : Nat
  detail : String
deriving DecidableEq

/-- Request body of `POST /generate-curriculum`. -/
structure CurriculumRequest where
  target_language : String
  scenario : String
deriving DecidableEq

/-- Embedding of `GET /available-scenarios`.  The module-level `agent` is
`none` when construction raised.  The `try` block of the handler cannot
fail here because the embedded enumeration is total, so the 500 path is
dead. -/
def available_scenarios_endpoint (agent : Option AgentState) :
    Except HTTPError (List String × List String) :=
  match agent with
  | none => .error ⟨503, "Curriculum agent is not available. Please check your API key and try again."⟩
  | some _ => .ok get_available_scenarios_and_languages

/-- Embedding of `GET /cache-stats`. -/
def cache_stats_endpoint (agent : Option AgentState) :
    Except HTTPError CacheStats :=
  match agent with
  | none => .error ⟨503, "Curriculum agent is not available."⟩
  | some ag => .ok (get_cache_stats ag)

/-- Embedding of `POST /generate-curriculum`.  The work of the `try`
block (agent.generate_curriculum plus the response conversion, which can
raise through the on-demand context queries or a missing dict key) is
the parameter `runGeneration`; an `Except.error` there models a raised
exception and is mapped to a 500. -/
def generate_curriculum_endpoint (agent : Option AgentState)
    (runGeneration : AgentState → CurriculumInput → Except String CurriculumOutput)
    (request : CurriculumRequest) : Except HTTPError CurriculumOutput :=
  match agent with
  | none => .error ⟨503, "Curriculum agent is not available. Please check your API key and try again."⟩
  | some ag =>
    if request.target_language = "" ∨ request.scenario = "" then
      .error ⟨400, "Both target_language and scenario are required"⟩
    else
      match runGeneration ag ⟨request.target_language, request.scenario⟩ with
      | .error e => .error ⟨500, "Error generating curriculum: " ++ e⟩
      | .ok c => .ok c

/-! ## Helper lemmas -/

/-- Lookup succeeds on any key of the association list. -/
theorem lookup_isSome_of_mem_keys (k : String) (xs : List (String × String))
    (h : k ∈ xs.map Prod.fst) : (xs.lookup k).isSome = true := by
  induction xs with
  | nil => simp at h
  | cons p xs ih =>
    obtain ⟨k', v⟩ := p
    by_cases hk : k = k'
    · simp [List.lookup, hk]
    · have hb : (k == k') = false := beq_eq_false_iff_ne.mpr hk
      simp only [List.lookup, hb]
      apply ih
      simp only [List.map, List.mem_cons] at h
      exact h.resolve_left hk

/-- Lookup misses when the key differs from every stored key. -/
theorem lookup_eq_none_of_forall (k : String) (xs : List (String × String))
    (h : ∀ p ∈ xs, k ≠ p.1) : xs.lookup k = none := by
  induction xs with
  | nil => rfl
  | cons p xs ih =>
    obtain ⟨k', v⟩ := p
    have hb : (k == k') = false := beq_eq_false_iff_ne.mpr (h (k', v) (by simp))
    simp only [List.lookup, hb]
    exact ih (fun p hp => h p (List.mem_cons_of_mem _ hp))

/-- Splitting a list at a separator character is unique when neither
target part contains the separator. -/
theorem append_sep_unique (sep : Char) :
    ∀ (a s b l : List Char), sep ∉ a → sep ∉ b →
      s ++ sep :: l = a ++ sep :: b → s = a ∧ l = b := by
  intro a
  induction a with
  | nil =>
    intro s b l _ hb heq
    cases s with
    | nil =>
      simp only [List.nil_append] at heq
      injection heq with h1 h2
      exact ⟨rfl, h2⟩
    | cons c s' =>
      exfalso
      simp only [List.cons_append, List.nil_append, List.cons.injEq] at heq
      exact hb (heq.2 ▸ List.mem_append_right s' (List.mem_cons_self sep l))
  | cons c a' ih =>
    intro s b l ha hb heq
    cases s with
    | nil =>
      exfalso
      simp only [List.nil_append, List.cons_append, List.cons.injEq] at heq
      exact ha (heq.1 ▸ List.mem_cons_self c a')
    | cons d s' =>
      simp only [List.cons_append, List.cons.injEq] at heq
      have ha' : sep ∉ a' := fun hmem => ha (List.mem_cons_of_mem c hmem)
      obtain ⟨hs, hl⟩ := ih s' b l ha' hb heq.2
      exact ⟨by rw [heq.1, hs], hl⟩

/-- Two cache keys agree only on equal components, provided the target
components do not contain the separator. -/
theorem cacheKey_eq_of_no_sep (s l a b : String)
    (ha : '_' ∉ a.data) (hb : '_' ∉ b.data)
    (h : cacheKey s l = cacheKey a b) : s = a ∧ l = b := by
  have hd : s.data ++ '_' :: l.data = a.data ++ '_' :: b.data := by
    have h2 := congrArg String.data h
    simp only [cacheKey, String.data_append] at h2
    simpa using h2
  obtain ⟨h1, h2⟩ := append_sep_unique '_' a.data s.data b.data l.data ha hb hd
  exact ⟨String.ext h1, String.ext h2⟩

/-- Concrete value of the enumeration. -/
theorem available_eq :
    get_available_scenarios_and_languages =
      (["Cafe Order", "Hotel Checkin", "Shopping"], ["French", "Spanish"]) := by
  decide

/-! ## Claim theorems -/

/-- C1: after start-up precomputation, for every (scenario, language)
pair of the cross-product enumerated from the Knowledge Base index, both
caches hold an entry under the key `scenario ++ "_" ++ language`; the key
list of each cache is exactly that cross-product; and a lookup for any
pair outside the cross-product misses both caches. -/
theorem precomputed_cache_key_space (queryKB : String → String → Option String) :
    (∀ s l, s ∈ get_available_scenarios_and_languages.1 →
        l ∈ get_available_scenarios_and_languages.2 →
        ((knowledgeCacheOf queryKB).lookup (cacheKey s l)).isSome = true ∧
        (realWorldCacheOf.lookup (cacheKey s l)).isSome = true) ∧
    ((knowledgeCacheOf queryKB).map Prod.fst =
       get_available_scenarios_and_languages.1.flatMap (fun s =>
         get_available_scenarios_and_languages.2.map (fun l => cacheKey s l)) ∧
     realWorldCacheOf.map Prod.fst =
       get_available_scenarios_and_languages.1.flatMap (fun s =>
         get_available_scenarios_and_languages.2.map (fun l => cacheKey s l))) ∧
    (∀ s l, ¬ (s ∈ get_available_scenarios_and_languages.1 ∧
               l ∈ get_available_scenarios_and_languages.2) →
        (knowledgeCacheOf queryKB).lookup (cacheKey s l) = none ∧
        realWorldCacheOf.lookup (cacheKey s l) = none) := by
  have hkkeys : (knowledgeCacheOf queryKB).map Prod.fst =
      get_available_scenarios_and_languages.1.flatMap (fun s =>
        get_available_scenarios_and_languages.2.map (fun l => cacheKey s l)) := rfl
  have hrkeys : realWorldCacheOf.map Prod.fst =
      get_available_scenarios_and_languages.1.flatMap (fun s =>
        get_available_scenarios_and_languages.2.map (fun l => cacheKey s l)) := rfl
  refine ⟨?_, ⟨hkkeys, hrkeys⟩, ?_⟩
  · intro s l hs hl
    have hmem : cacheKey s l ∈
        get_available_scenarios_and_languages.1.flatMap (fun s =>
          get_available_scenarios_and_languages.2.map (fun l => cacheKey s l)) := by
      simp only [List.mem_flatMap, List.mem_map]
      exact ⟨s, hs, l, hl, rfl⟩
    exact ⟨lookup_isSome_of_mem_keys _ _ (hkkeys ▸ hmem),
           lookup_isSome_of_mem_keys _ _ (hrkeys ▸ hmem)⟩
  · intro s l h
    have hne : ∀ p, (∃ s' ∈ get_available_scenarios_and_languages.1,
        ∃ l' ∈ get_available_scenarios_and_languages.2,
          p = cacheKey s' l') → cacheKey s l ≠ p := by
      rintro p ⟨s', hs', l', hl', rfl⟩ hkk
      rw [available_eq] at hs' hl'
      simp only [List.mem_cons, List.not_mem_nil, or_false] at hs' hl'
      rcases hs' with rfl | rfl | rfl <;> rcases hl' with rfl | rfl <;>
        · obtain ⟨h1, h2⟩ := cacheKey_eq_of_no_sep _ _ _ _ (by decide) (by decide) hkk
          exact h ⟨by rw [available_eq, h1]; simp, by rw [available_eq, h2]; simp⟩
    refine ⟨lookup_eq_none_of_forall _ _ ?_, lookup_eq_none_of_forall _ _ ?_⟩
    · intro p hp
      have hp1 : p.1 ∈ (knowledgeCacheOf queryKB).map Prod.fst :=
        List.mem_map_of_mem Prod.fst hp
      rw [hkkeys] at hp1
      simp only [List.mem_flatMap, List.mem_map] at hp1
      obtain ⟨s', hs', l', hl', hkey⟩ := hp1
      exact hne p.1 ⟨s', hs', l', hl', hkey.symm⟩
    · intro p hp
      have hp1 : p.1 ∈ realWorldCacheOf.map Prod.fst :=
        List.mem_map_of_mem Prod.fst hp
      rw [hrkeys] at hp1
      simp only [List.mem_flatMap, List.mem_map] at hp1
      obtain ⟨s', hs', l', hl', hkey⟩ := hp1
      exact hne p.1 ⟨s', hs', l', hl', hkey.symm⟩

/-- C1 witness: concrete instantiation with an always-failing semantic
query, an in-space pair and an out-of-space pair. -/
theorem precomputed_cache_key_space_witness :
    ((knowledgeCacheOf (fun _ _ => none)).lookup (cacheKey "Cafe Order" "French")).isSome = true ∧
    realWorldCacheOf.lookup (cacheKey "Shopping" "German") = none :=
  ⟨((precomputed_cache_key_space (fun _ _ => none)).1 "Cafe Order" "French"
      (by decide) (by decide)).1,
   ((precomputed_cache_key_space (fun _ _ => none)).2.2 "Shopping" "German"
      (by decide)).2⟩

/-- C2: the statistics view reports `cache_hit_rate = "100%"` exactly when
the knowledge cache is non-empty and `"0%"` when it is empty, for every
agent state — a population-based constant, independent of lookup history
(the embedding carries no lookup history at all). -/
theorem cache_hit_rate_population (st : AgentState) :
    (st.knowledge_cache ≠ [] → (get_cache_stats st).cache_hit_rate = "100%") ∧
    (st.knowledge_cache = [] → (get_cache_stats st).cache_hit_rate = "0%") := by
  constructor
  · intro h
    have hpos : 0 < st.knowledge_cache.length := List.length_pos.mpr h
    simp [get_cache_stats, hpos]
  · intro h
    simp [get_cache_stats, h]

/-- C2 witness: a one-entry cache reports 100%, an empty cache 0%. -/
theorem cache_hit_rate_population_witness :
    (get_cache_stats ⟨[("Cafe Order_French", "ctx")], []⟩).cache_hit_rate = "100%" ∧
    (get_cache_stats ⟨[], []⟩).cache_hit_rate = "0%" :=
  ⟨(cache_hit_rate_population ⟨[("Cafe Order_French", "ctx")], []⟩).1 (by decide),
   (cache_hit_rate_population ⟨[], []⟩).2 rfl⟩

/-- Generation falls back whenever the model call raises or its text does
not parse: shared helper for the fallback claims. -/
theorem generate_falls_back_of_fail (st : AgentState)
    (queryKB : String → String → String)
    (genResult : String → Option String)
    (parseCurriculum : String → Option CurriculumOutput)
    (input_data : CurriculumInput)
    (hfail : ∀ p t, genResult p = some t → parseCurriculum (stripCodeFence t) = none) :
    generate_curriculum st queryKB genResult parseCurriculum input_data =
      create_fallback_curriculum input_data := by
  have key : ∀ P : String,
      (match genResult P with
       | none => create_fallback_curriculum input_data
       | some text =>
         match parseCurriculum (stripCodeFence text) with
         | none => create_fallback_curriculum input_data
         | some out => out) = create_fallback_curriculum input_data := by
    intro P
    cases hg : genResult P with
    | none => rfl
    | some t => simp [hfail P t hg]
  simp only [generate_curriculum]
  exact key _

/-- C3: for scenario "Cafe Order" and language "French", when the model
call fails (raises, or returns text that does not parse), the result is
the fixed fallback curriculum: its scene contains "charming French café"
and the expected response of the first question is "Bonjour, monsieur/madame". -/
theorem fallback_cafe_order_french (st : AgentState)
    (queryKB : String → String → String)
    (genResult : String → Option String)
    (parseCurriculum : String → Option CurriculumOutput)
    (hfail : ∀ p t, genResult p = some t → parseCurriculum (stripCodeFence t) = none) :
    generate_curriculum st queryKB genResult parseCurriculum ⟨"French", "Cafe Order"⟩ =
      create_fallback_curriculum ⟨"French", "Cafe Order"⟩ ∧
    pyInStr "charming French café"
      (generate_curriculum st queryKB genResult parseCurriculum
        ⟨"French", "Cafe Order"⟩).scenario_scene = true ∧
    pyGet ((generate_curriculum st queryKB genResult parseCurriculum
        ⟨"French", "Cafe Order"⟩).curriculum_questions.getD 0 [])
      "expected_response" "" = "Bonjour, monsieur/madame" := by
  have h := generate_falls_back_of_fail st queryKB genResult parseCurriculum
    ⟨"French", "Cafe Order"⟩ hfail
  refine ⟨h, ?_, ?_⟩ <;> rw [h] <;> decide

/-- C3 witness: concrete run with an always-raising model call. -/
theorem fallback_cafe_order_french_witness :
    pyGet ((generate_curriculum ⟨[], []⟩ (fun _ _ => "") (fun _ => none) (fun _ => none)
        ⟨"French", "Cafe Order"⟩).curriculum_questions.getD 0 [])
      "expected_response" "" = "Bonjour, monsieur/madame" :=
  (fallback_cafe_order_french ⟨[], []⟩ (fun _ _ => "") (fun _ => none) (fun _ => none)
    (fun _ _ h => Option.noConfusion h)).2.2

/-- C4: for scenario "Hotel Check-in" and language "Spanish", when the
model call fails, the second fallback question has expected response
exactly "Tengo una reserva". -/
theorem fallback_hotel_checkin_spanish (st : AgentState)
    (queryKB : String → String → String)
    (genResult : String → Option String)
    (parseCurriculum : String → Option CurriculumOutput)
    (hfail : ∀ p t, genResult p = some t → parseCurriculum (stripCodeFence t) = none) :
    generate_curriculum st queryKB genResult parseCurriculum ⟨"Spanish", "Hotel Check-in"⟩ =
      create_fallback_curriculum ⟨"Spanish", "Hotel Check-in"⟩ ∧
    pyGet ((generate_curriculum st queryKB genResult parseCurriculum
        ⟨"Spanish", "Hotel Check-in"⟩).curriculum_questions.getD 1 [])
      "expected_response" "" = "Tengo una reserva" := by
  have h := generate_falls_back_of_fail st queryKB genResult parseCurriculum
    ⟨"Spanish", "Hotel Check-in"⟩ hfail
  refine ⟨h, ?_⟩
  rw [h]
  decide

/-- C4 witness: concrete run with an always-raising model call. -/
theorem fallback_hotel_checkin_spanish_witness :
    pyGet ((generate_curriculum ⟨[], []⟩ (fun _ _ => "") (fun _ => none) (fun _ => none)
        ⟨"Spanish", "Hotel Check-in"⟩).curriculum_questions.getD 1 [])
      "expected_response" "" = "Tengo una reserva" :=
  (fallback_hotel_checkin_spanish ⟨[], []⟩ (fun _ _ => "") (fun _ => none) (fun _ => none)
    (fun _ _ h => Option.noConfusion h)).2

/-- C5: the cache-key function is not injective — the distinct pairs
("A_B", "C") and ("A", "B_C") produce the same key, so two distinct
(scenario, language) pairs can share one cache entry. -/
theorem cacheKey_not_injective :
    cacheKey "A_B" "C" = cacheKey "A" "B_C" ∧
    ("A_B", "C") ≠ (("A", "B_C") : String × String) ∧
    ¬ Function.Injective (fun p : String × String => cacheKey p.1 p.2) := by
  refine ⟨by decide, by decide, ?_⟩
  intro hinj
  have h := @hinj ("A_B", "C") ("A", "B_C") (by decide)
  exact absurd h (by decide)

/-- C6: with the agent available, an empty `target_language` or an empty
`scenario` is rejected with HTTP 400, for every value of the other field
and for every downstream generation behaviour (the 400 is independent of
`runGeneration`, i.e. produced before any downstream call). -/
theorem empty_fields_rejected_400 (ag : AgentState)
    (runGeneration : AgentState → CurriculumInput → Except String CurriculumOutput)
    (scenario target_language : String) :
    generate_curriculum_endpoint (some ag) runGeneration ⟨"", scenario⟩ =
      .error ⟨400, "Both target_language and scenario are required"⟩ ∧
    generate_curriculum_endpoint (some ag) runGeneration ⟨target_language, ""⟩ =
      .error ⟨400, "Both target_language and scenario are required"⟩ := by
  constructor
  · simp [generate_curriculum_endpoint]
  · simp [generate_curriculum_endpoint]

/-- C7: with the agent unavailable, `GET /available-scenarios`,
`GET /cache-stats` and `POST /generate-curriculum` all return HTTP 503. -/
theorem unavailable_agent_503 :
    available_scenarios_endpoint none =
      .error ⟨503, "Curriculum agent is not available. Please check your API key and try again."⟩ ∧
    cache_stats_endpoint none = .error ⟨503, "Curriculum agent is not available."⟩ ∧
    ∀ (runGeneration : AgentState → CurriculumInput → Except String CurriculumOutput)
      (req : CurriculumRequest),
      generate_curriculum_endpoint none runGeneration req =
        .error ⟨503, "Curriculum agent is not available. Please check your API key and try again."⟩ :=
  ⟨rfl, rfl, fun _ _ => rfl⟩

/-- C8: with the live-fetch flag disabled (as it is), the real-world data
operation resolves its answer from the static mock table keyed by the
lower-cased, space-to-underscore scenario and the exact language, and a
missing entry yields the formatted block with "N/A" in the Menu/Terms,
Common Phrases and Cultural Notes fields, without raising. -/
theorem real_world_missing_entry_na (scenario target_language : String) :
    get_real_world_data scenario target_language =
      realWorldBlock scenario target_language
        (pyGet (pyGet (pyGet real_world_data (pyReplace (pyLower scenario) " " "_") [])
          target_language []) "menu_items" "N/A")
        (pyGet (pyGet (pyGet real_world_data (pyReplace (pyLower scenario) " " "_") [])
          target_language []) "common_phrases" "N/A")
        (pyGet (pyGet (pyGet real_world_data (pyReplace (pyLower scenario) " " "_") [])
          target_language []) "cultural_notes" "N/A") ∧
    (pyGet (pyGet real_world_data (pyReplace (pyLower scenario) " " "_") [])
        target_language [] = [] →
      get_real_world_data scenario target_language =
        realWorldBlock scenario target_language "N/A" "N/A" "N/A") := by
  constructor
  · rfl
  · intro h
    simp only [get_real_world_data]
    rw [h]
    rfl

/-- C8 witness: a pair with no mock entry produces the all-"N/A" block. -/
theorem real_world_missing_entry_na_witness :
    get_real_world_data "Zoo Visit" "German" =
      realWorldBlock "Zoo Visit" "German" "N/A" "N/A" "N/A" :=
  (real_world_missing_entry_na "Zoo Visit" "German").2 (by decide)

/-- C9: with the live-fetch flag disabled, the real-world data operation
is pure: it leaves the agent state unchanged and repeated calls on the
same input return the identical text. -/
theorem real_world_data_pure (st : AgentState) (scenario target_language : String) :
    (getRealWorldDataS st scenario target_language).2 = st ∧
    (getRealWorldDataS st scenario target_language).1 =
      (getRealWorldDataS (getRealWorldDataS st scenario target_language).2
        scenario target_language).1 :=
  ⟨rfl, rfl⟩

/-- C10: for every scenario normalizing to "hotel_checkin" and language
French or Spanish, the mock entry exists but stores its items under
`hotel_terms`, while the formatter reads `menu_items`; so the block's
Menu/Terms field is "N/A" although the Common Phrases and Cultural Notes
fields are taken from the entry. -/
theorem hotel_menu_terms_na (scenario target_language : String)
    (hs : pyReplace (pyLower scenario) " " "_" = "hotel_checkin")
    (hl : target_language = "French" ∨ target_language = "Spanish") :
    pyGet (pyGet real_world_data "hotel_checkin" []) target_language [] ≠ [] ∧
    pyGet (pyGet (pyGet real_world_data "hotel_checkin" []) target_language [])
      "menu_items" "N/A" = "N/A" ∧
    pyGet (pyGet (pyGet real_world_data "hotel_checkin" []) target_language [])
      "hotel_terms" "" ≠ "" ∧
    get_real_world_data scenario target_language =
      realWorldBlock scenario target_language "N/A"
        (pyGet (pyGet (pyGet real_world_data "hotel_checkin" []) target_language [])
          "common_phrases" "N/A")
        (pyGet (pyGet (pyGet real_world_data "hotel_checkin" []) target_language [])
          "cultural_notes" "N/A") ∧
    pyGet (pyGet (pyGet real_world_data "hotel_checkin" []) target_language [])
      "common_phrases" "N/A" ≠ "N/A" ∧
    pyGet (pyGet (pyGet real_world_data "hotel_checkin" []) target_language [])
      "cultural_notes" "N/A" ≠ "N/A" := by
  rcases hl with rfl | rfl <;>
    refine ⟨by decide, by decide, by decide, ?_, by decide, by decide⟩
  · simp only [get_real_world_data]
    rw [hs]
    rw [(by decide : pyGet (pyGet (pyGet real_world_data "hotel_checkin" []) "French" [])
      "menu_items" "N/A" = "N/A")]
  · simp only [get_real_world_data]
    rw [hs]
    rw [(by decide : pyGet (pyGet (pyGet real_world_data "hotel_checkin" []) "Spanish" [])
      "menu_items" "N/A" = "N/A")]

/-- C10 witness: the precomputed scenario name "Hotel Checkin" with French. -/
theorem hotel_menu_terms_na_witness :
    get_real_world_data "Hotel Checkin" "French" =
      realWorldBlock "Hotel Checkin" "French" "N/A"
        (pyGet (pyGet (pyGet real_world_data "hotel_checkin" []) "French" [])
          "common_phrases" "N/A")
        (pyGet (pyGet (pyGet real_world_data "hotel_checkin" []) "French" [])
          "cultural_notes" "N/A") :=
  (hotel_menu_terms_na "Hotel Checkin" "French" (by decide) (Or.inl rfl)).2.2.2.1

end CurriculumAgent
